import Mathlib

set_option maxRecDepth 4000

/-!
Shallow embedding of the pixel-avatar generator (TypeScript sources:
`prng.ts`, `palettes.ts`, `buffer.ts`, `engine.ts`, `exporters.ts`).
JS 32-bit unsigned values are modelled as `Nat` with explicit `% 2^32`
truncation; JS 32-bit signed values as `Int` with an explicit wrap;
JS strings at the UTF-16 code-unit level as `List Nat` where character
codes matter, and as Lean `String` where only equality matters.
-/

namespace XorShift32

/-- The 32-bit truncation of the JS left shift `s << k` viewed unsigned. -/
def shl32 (s k : Nat) : Nat := (s <<< k) % 4294967296

/-- First xorshift step `state ^= state << 13`. -/
def step1 (s : Nat) : Nat := s ^^^ shl32 s 13

/-- Second xorshift step `state ^= state >>> 17`. -/
def step2 (s : Nat) : Nat := s ^^^ (s >>> 17)

/-- Third xorshift step `state ^= state << 5`. -/
def step3 (s : Nat) : Nat := s ^^^ shl32 s 5

/-- Constructor: `this.state = seed === 0 ? 1 : seed >>> 0`.  Note the zero
test happens on the raw seed, before the unsigned 32-bit conversion. -/
def init (seed : Nat) : Nat := if seed = 0 then 1 else seed % 4294967296

/-- The method `next()`: three xorshift steps; the returned value is the new
state (`return this.state >>> 0`, a no-op on the unsigned view). -/
def next (s : Nat) : Nat := step3 (step2 (step1 s))

/-- The method `int(max)` = `next() % max`; returns (value, new state). -/
def int (s : Nat) (max : Nat) : Nat × Nat := (next s % max, next s)

/-- The method `pick(array)` = `array[int(array.length)]`; returns
(value, new state).  The `default` is never reached on the non-empty
literal lists the engine passes. -/
def pick {α : Type} [Inhabited α] (s : Nat) (l : List α) : α × Nat :=
  (l.getD (next s % l.length) default, next s)

/-- The method `chance(p)` = `next() / 0x100000000 < p`; returns
(value, new state).  The JS float literals fed to `chance` (0.1 … 0.7)
are modelled as the exact rationals they denote; since the compared value
is always a multiple of 2^-32 and the thresholds are never, the nearest
double rounding of the literals cannot change any comparison. -/
def chance (s : Nat) (p : ℚ) : Bool × Nat :=
  (decide ((next s : ℚ) / 4294967296 < p), next s)

/-- The method `float()` = `next() / 0x100000000`; returns (value, new state). -/
def float (s : Nat) : ℚ × Nat := ((next s : ℚ) / 4294967296, next s)

theorem shl32_eq (s k : Nat) : shl32 s k = s * 2 ^ k % 4294967296 := by
  simp [shl32, Nat.shiftLeft_eq]

theorem shl32_lt (s k : Nat) : shl32 s k < 4294967296 :=
  Nat.mod_lt _ (by norm_num)

theorem pow32 : (4294967296 : Nat) = 2 ^ 32 := by norm_num

theorem step1_lt {s : Nat} (h : s < 4294967296) : step1 s < 4294967296 := by
  rw [pow32] at h ⊢
  exact Nat.xor_lt_two_pow h (pow32 ▸ shl32_lt s 13)

theorem step2_lt {s : Nat} (h : s < 4294967296) : step2 s < 4294967296 := by
  rw [pow32] at h ⊢
  have hle : s >>> 17 ≤ s := by
    rw [Nat.shiftRight_eq_div_pow]; exact Nat.div_le_self s (2 ^ 17)
  exact Nat.xor_lt_two_pow h (lt_of_le_of_lt hle h)

theorem step3_lt {s : Nat} (h : s < 4294967296) : step3 s < 4294967296 := by
  rw [pow32] at h ⊢
  exact Nat.xor_lt_two_pow h (pow32 ▸ shl32_lt s 5)

theorem next_lt {s : Nat} (h : s < 4294967296) : next s < 4294967296 :=
  step3_lt (step2_lt (step1_lt h))

/-- A 32-bit value fixed by multiplication by an odd factor modulo 2^32 is 0. -/
theorem eq_zero_of_mul_mod_fix (m : Nat) {s : Nat} (hlt : s < 4294967296)
    (hco : Nat.Coprime 4294967296 m) (heq : s = s * (m + 1) % 4294967296) :
    s = 0 := by
  have hmod : s % 4294967296 = s * (m + 1) % 4294967296 := by
    rw [Nat.mod_eq_of_lt hlt]; exact heq
  have hle : s ≤ s * (m + 1) := Nat.le_mul_of_pos_right s (by omega)
  have hdvd : (4294967296 : Nat) ∣ s * (m + 1) - s := (Nat.modEq_iff_dvd' hle).mp hmod
  have hsub : s * (m + 1) - s = s * m := by ring_nf; omega
  rw [hsub] at hdvd
  have hds : (4294967296 : Nat) ∣ s := hco.dvd_of_dvd_mul_right hdvd
  exact Nat.eq_zero_of_dvd_of_lt hds hlt

theorem step1_ne_zero {s : Nat} (hlt : s < 4294967296) (hs : s ≠ 0) :
    step1 s ≠ 0 := by
  intro h
  have heq : s = shl32 s 13 := Nat.xor_eq_zero.mp h
  rw [shl32_eq] at heq
  exact hs (eq_zero_of_mul_mod_fix 8191 hlt (by decide) (by norm_num at heq ⊢; exact heq))

theorem step2_ne_zero {s : Nat} (hs : s ≠ 0) : step2 s ≠ 0 := by
  intro h
  have heq : s = s >>> 17 := Nat.xor_eq_zero.mp h
  rw [Nat.shiftRight_eq_div_pow] at heq
  have hlt : s / 2 ^ 17 < s := Nat.div_lt_self (Nat.pos_of_ne_zero hs) (by norm_num)
  omega

theorem step3_ne_zero {s : Nat} (hlt : s < 4294967296) (hs : s ≠ 0) :
    step3 s ≠ 0 := by
  intro h
  have heq : s = shl32 s 5 := Nat.xor_eq_zero.mp h
  rw [shl32_eq] at heq
  exact hs (eq_zero_of_mul_mod_fix 31 hlt (by decide) (by norm_num at heq ⊢; exact heq))

theorem next_ne_zero {s : Nat} (hlt : s < 4294967296) (hs : s ≠ 0) :
    next s ≠ 0 :=
  step3_ne_zero (step2_lt (step1_lt hlt)) (step2_ne_zero (step1_ne_zero hlt hs))

theorem iterate_next_ne_zero (n : Nat) :
    ∀ s : Nat, s < 4294967296 → s ≠ 0 →
      next^[n] s ≠ 0 ∧ next^[n] s < 4294967296 := by
  induction n with
  | zero => intro s hlt hs; exact ⟨hs, hlt⟩
  | succ n ih =>
    intro s hlt hs
    rw [Function.iterate_succ_apply]
    exact ih (next s) (next_lt hlt) (next_ne_zero hlt hs)

end XorShift32

/-! Palette registry (`palettes.ts`). -/

structure Palette where
  name : String
  colors : List String
  skin : List String
  hair : List String
  eyes : List String
  clothes : List String
  accent : List String
deriving DecidableEq

def nesPalette : Palette :=
  { name := "NES"
    colors := ["#000000", "#FFFFFF", "#880000", "#AAFFEE", "#CC44CC", "#00CC55",
               "#0000AA", "#EEEE77", "#DD8855", "#664400", "#FF7777", "#333333",
               "#777777", "#AAFF66", "#0088FF", "#BBBBBB"]
    skin := ["#FFDBAC", "#F1C27D", "#E0AC69", "#C68642", "#8D5524", "#654321"]
    hair := ["#000000", "#654321", "#8D5524", "#D2691E", "#DAA520", "#FFFFFF"]
    eyes := ["#000000", "#654321", "#0000AA", "#00CC55", "#777777"]
    clothes := ["#880000", "#0000AA", "#00CC55", "#CC44CC", "#333333"]
    accent := ["#FFFFFF", "#EEEE77", "#AAFFEE", "#FF7777"] }

def gameboyPalette : Palette :=
  { name := "Game Boy"
    colors := ["#0F380F", "#306230", "#8BAC0F", "#9BBD0F"]
    skin := ["#9BBD0F", "#8BAC0F"]
    hair := ["#0F380F", "#306230"]
    eyes := ["#0F380F"]
    clothes := ["#306230", "#0F380F"]
    accent := ["#9BBD0F", "#8BAC0F"] }

def pastelPalette : Palette :=
  { name := "Pastel"
    colors := ["#FFB3BA", "#FFDFBA", "#FFFFBA", "#BAFFC9", "#BAE1FF", "#E1BAFF",
               "#FFBAE1", "#C9BAFF"]
    skin := ["#FFDFBA", "#FFB3BA", "#FFFFBA"]
    hair := ["#E1BAFF", "#C9BAFF", "#FFBAE1", "#BAE1FF"]
    eyes := ["#BAE1FF", "#BAFFC9", "#E1BAFF"]
    clothes := ["#FFB3BA", "#BAFFC9", "#C9BAFF", "#FFBAE1"]
    accent := ["#FFFFBA", "#BAFFC9", "#BAE1FF", "#FFBAE1"] }

/-- The record `palettes` of `palettes.ts`, as an association list. -/
def palettes : List (String × Palette) :=
  [("nes", nesPalette), ("gameboy", gameboyPalette), ("pastel", pastelPalette)]

/-- The function `getPalette`: `palettes[name] || palettes.nes`. -/
def getPalette (name : String) : Palette := (palettes.lookup name).getD nesPalette

/-- JS `Array.prototype.indexOf`: position of the first occurrence, `-1` if
the element is absent.  The engine uses it as `palette.colors.indexOf(color)`. -/
def jsIndexOf (l : List String) (x : String) : Int :=
  match l.findIdx? (fun c => c == x) with
  | some i => (i : Int)
  | none => -1

/-- C2: the claim asserts that every entry of every role sublist of every
registered palette occurs in that palette's flat `colors` list, so that the
engine's `colors.indexOf` lookup always succeeds.  The static data violates
this: the `nes` palette's first skin tone `#FFDBAC` is listed in `nes.skin`
but absent from `nes.colors`, and the engine's lookup of it yields the
sentinel `-1` (the pixels are then drawn as transparent).  The `gameboy` and
`pastel` palettes, and the `nes` clothes/accent sublists, do satisfy the
membership property. -/
theorem nes_skin_color_lookup_fails :
    "#FFDBAC" ∈ nesPalette.skin
  ∧ "#FFDBAC" ∉ nesPalette.colors
  ∧ jsIndexOf nesPalette.colors "#FFDBAC" = -1
  ∧ (∀ c ∈ gameboyPalette.skin ++ gameboyPalette.hair ++ gameboyPalette.eyes ++
        gameboyPalette.clothes ++ gameboyPalette.accent, c ∈ gameboyPalette.colors)
  ∧ (∀ c ∈ pastelPalette.skin ++ pastelPalette.hair ++ pastelPalette.eyes ++
        pastelPalette.clothes ++ pastelPalette.accent, c ∈ pastelPalette.colors)
  ∧ (∀ c ∈ nesPalette.clothes ++ nesPalette.accent, c ∈ nesPalette.colors) := by
  decide

/-- C4: `chance(0)` is always false, `chance(1)` is always true, `chance(p)`
is true exactly when `next() / 2^32 < p`, and `next()` stays below `2^32`
(for any 32-bit state). -/
theorem chance_boundaries (s : Nat) (p : ℚ) (hs : s < 4294967296) :
    (XorShift32.chance s 0).1 = false
  ∧ (XorShift32.chance s 1).1 = true
  ∧ ((XorShift32.chance s p).1 = true ↔ (XorShift32.next s : ℚ) / 4294967296 < p)
  ∧ XorShift32.next s < 4294967296 := by
  have hlt : XorShift32.next s < 4294967296 := XorShift32.next_lt hs
  have hqlt : (XorShift32.next s : ℚ) < 4294967296 := by exact_mod_cast hlt
  refine ⟨?_, ?_, ?_, hlt⟩
  · simp only [XorShift32.chance, decide_eq_false_iff_not, not_lt]
    positivity
  · simp only [XorShift32.chance, decide_eq_true_eq]
    rw [div_lt_one (by norm_num)]
    exact hqlt
  · simp [XorShift32.chance]

/-- Witness for `chance_boundaries` at the concrete state 42 and p = 1/2. -/
theorem chance_boundaries_witness :
    (42 : Nat) < 4294967296
  ∧ ((XorShift32.chance 42 0).1 = false
     ∧ (XorShift32.chance 42 1).1 = true
     ∧ ((XorShift32.chance 42 (1/2)).1 = true ↔
          (XorShift32.next 42 : ℚ) / 4294967296 < 1/2)
     ∧ XorShift32.next 42 < 4294967296) :=
  ⟨by decide, chance_boundaries 42 (1/2) (by decide)⟩

/-- C5 (amended): the zero-state guard tests the raw seed before the
unsigned 32-bit truncation, so the invariant `state ≠ 0` holds after
construction for every seed that is zero or has a nonzero unsigned 32-bit
residue (which covers every value `emailToSeed` can produce), and it is
preserved by any number of `next()` draws. -/
theorem state_never_zero (seed n : Nat)
    (h : seed = 0 ∨ seed % 4294967296 ≠ 0) :
    XorShift32.next^[n] (XorShift32.init seed) ≠ 0 := by
  have hinit : XorShift32.init seed ≠ 0 ∧ XorShift32.init seed < 4294967296 := by
    rcases h with h0 | hm
    · subst h0; exact ⟨by decide, by decide⟩
    · have hne : seed ≠ 0 := by intro h0; exact hm (by simp [h0])
      refine ⟨?_, ?_⟩
      · simpa [XorShift32.init, hne] using hm
      · simp only [XorShift32.init, hne, if_false]
        exact Nat.mod_lt _ (by norm_num)
  exact (XorShift32.iterate_next_ne_zero n _ hinit.2 hinit.1).1

/-- Witness for `state_never_zero` with seed 5 and three draws. -/
theorem state_never_zero_witness :
    ((5 : Nat) = 0 ∨ (5 : Nat) % 4294967296 ≠ 0)
  ∧ XorShift32.next^[3] (XorShift32.init 5) ≠ 0 :=
  ⟨by decide, state_never_zero 5 3 (by decide)⟩

/-- C5 counterexample: the claim as stated says the nonzero-state invariant
holds after construction for any seed, any nonzero seed being taken as its
unsigned 32-bit value.  Seed `2^32` is nonzero yet its unsigned 32-bit value
is 0, the guard `seed === 0` does not fire, and the constructed state is 0,
which `next()` then maps to 0 forever. -/
theorem state_never_zero_counterexample :
    XorShift32.init 4294967296 = 0 ∧ XorShift32.next 0 = 0 := by
  decide

/-! Seed derivation (`emailToSeed` in `prng.ts`).  JS strings are modelled
as lists of UTF-16 code units (`charCodeAt` values). -/

/-- Code points removed by JS `String.prototype.trim` (WhiteSpace and
LineTerminator productions). -/
def isJsWhitespace (c : Nat) : Bool :=
  decide (c = 9 ∨ c = 10 ∨ c = 11 ∨ c = 12 ∨ c = 13 ∨ c = 32 ∨ c = 160 ∨
          c = 5760 ∨ (8192 ≤ c ∧ c ≤ 8202) ∨ c = 8232 ∨ c = 8233 ∨ c = 8239 ∨
          c = 8287 ∨ c = 12288 ∨ c = 65279)

/-- JS `trim()`: drop whitespace from both ends. -/
def jsTrim (l : List Nat) : List Nat :=
  ((l.dropWhile isJsWhitespace).reverse.dropWhile isJsWhitespace).reverse

/-- Code-unit lowercasing: the Basic Latin fragment of JS `toLowerCase()`
(`A`–`Z` map to `a`–`z`; other units are left unchanged).  The full Unicode
case mapping is outside this model; case-variants are expressed as lists
with equal `jsToLower` images. -/
def toLowerCU (c : Nat) : Nat := if 65 ≤ c ∧ c ≤ 90 then c + 32 else c

/-- JS `toLowerCase()` over code units. -/
def jsToLower (l : List Nat) : List Nat := l.map toLowerCU

/-- Wrap an integer into the signed 32-bit range (JS `x & x`, i.e. ToInt32). -/
def toInt32 (n : Int) : Int := (n + 2147483648) % 4294967296 - 2147483648

/-- One step of the rolling hash: `hash = (hash << 5) - hash + char` followed
by `hash = hash & hash` (truncation to a signed 32-bit integer).  The shift
itself is a 32-bit operation, hence the inner wrap. -/
def hashStep (h : Int) (c : Nat) : Int := toInt32 (toInt32 (h * 32) - h + c)

/-- The function `emailToSeed(email, salt)`: trim and lowercase the email,
append the raw salt, hash, and return the absolute value. -/
def emailToSeed (email salt : List Nat) : Nat :=
  ((jsToLower (jsTrim email) ++ salt).foldl hashStep 0).natAbs

theorem isJsWhitespace_toLowerCU (c : Nat) :
    isJsWhitespace (toLowerCU c) = isJsWhitespace c := by
  by_cases h : 65 ≤ c ∧ c ≤ 90
  · have h1 : toLowerCU c = c + 32 := by simp [toLowerCU, h]
    rw [h1]
    simp only [isJsWhitespace]
    have h65 := h.1
    have h90 := h.2
    rw [decide_eq_decide]
    omega
  · simp [toLowerCU, h]

theorem jsToLower_all_whitespace {l : List Nat}
    (h : ∀ c ∈ l, isJsWhitespace c = true) :
    ∀ c ∈ jsToLower l, isJsWhitespace c = true := by
  intro c hc
  rcases List.mem_map.mp hc with ⟨a, ha, rfl⟩
  rw [isJsWhitespace_toLowerCU]
  exact h a ha

theorem jsTrim_jsToLower (l : List Nat) :
    jsToLower (jsTrim l) = jsTrim (jsToLower l) := by
  have hmapdrop : ∀ x : List Nat,
      jsToLower (x.dropWhile isJsWhitespace) =
        (jsToLower x).dropWhile isJsWhitespace := by
    intro x
    have hfun : (isJsWhitespace ∘ toLowerCU) = isJsWhitespace :=
      funext isJsWhitespace_toLowerCU
    rw [jsToLower, jsToLower, List.dropWhile_map, hfun]
  simp only [jsTrim]
  rw [jsToLower, List.map_reverse, ← jsToLower, hmapdrop, jsToLower,
    List.map_reverse, ← jsToLower, hmapdrop]

theorem jsTrim_pad {a b m : List Nat}
    (ha : ∀ c ∈ a, isJsWhitespace c = true)
    (hb : ∀ c ∈ b, isJsWhitespace c = true) :
    jsTrim (a ++ m ++ b) = jsTrim m := by
  simp only [jsTrim, List.append_assoc]
  rw [List.dropWhile_append_of_pos ha]
  by_cases hm : m.dropWhile isJsWhitespace = []
  · have hmall : ∀ c ∈ m, isJsWhitespace c = true :=
      List.dropWhile_eq_nil_iff.mp hm
    have hall : ∀ c ∈ m ++ b, isJsWhitespace c = true := by
      intro c hc
      rcases List.mem_append.mp hc with h | h
      · exact hmall c h
      · exact hb c h
    rw [List.dropWhile_eq_nil_iff.mpr hall, hm]
  · rw [List.dropWhile_append, if_neg (by simpa [List.isEmpty_iff] using hm),
      List.reverse_append, List.dropWhile_append_of_pos (by
        intro c hc; exact hb c (List.mem_reverse.mp hc))]

/-- C6: `emailToSeed` is invariant to leading/trailing whitespace padding and
to letter-case changes of the email, for any salt: the email is trimmed and
lowercased before hashing while the salt is appended raw. -/
theorem emailToSeed_normalization (ws1 ws2 e e2 salt : List Nat)
    (h1 : ∀ c ∈ ws1, isJsWhitespace c = true)
    (h2 : ∀ c ∈ ws2, isJsWhitespace c = true)
    (hcase : jsToLower e2 = jsToLower e) :
    emailToSeed (ws1 ++ e2 ++ ws2) salt = emailToSeed e salt := by
  have key : jsToLower (jsTrim (ws1 ++ e2 ++ ws2)) = jsToLower (jsTrim e) := by
    rw [jsTrim_jsToLower, jsTrim_jsToLower]
    have hmap : jsToLower (ws1 ++ e2 ++ ws2) =
        jsToLower ws1 ++ jsToLower e2 ++ jsToLower ws2 := by
      simp [jsToLower]
    rw [hmap, hcase]
    exact jsTrim_pad (jsToLower_all_whitespace h1) (jsToLower_all_whitespace h2)
  simp only [emailToSeed, key]

/-- Witness for `emailToSeed_normalization`: the email `Test@X` padded with a
space and a newline and case-flipped to `tEST@x`, with salt `s`. -/
theorem emailToSeed_normalization_witness :
    (∀ c ∈ [32], isJsWhitespace c = true)
  ∧ (∀ c ∈ [10], isJsWhitespace c = true)
  ∧ jsToLower [116, 69, 83, 84, 64, 120] = jsToLower [84, 101, 115, 116, 64, 88]
  ∧ emailToSeed ([32] ++ [116, 69, 83, 84, 64, 120] ++ [10]) [115] =
      emailToSeed [84, 101, 115, 116, 64, 88] [115] :=
  ⟨by decide, by decide, by decide,
    emailToSeed_normalization [32] [10] [84, 101, 115, 116, 64, 88]
      [116, 69, 83, 84, 64, 120] [115] (by decide) (by decide) (by decide)⟩

/-! Pixel buffer (`buffer.ts`).  The grid is a list of rows of color
indices; `-1` is the transparent sentinel.  Coordinates are integers, as in
JS, and every primitive silently skips out-of-bounds cells. -/

structure PixelBuffer where
  width : Nat
  height : Nat
  buffer : List (List Int)
deriving DecidableEq

namespace PixelBuffer

/-- The constructor: a `width × height` grid filled with `-1`. -/
def mkBuffer (width height : Nat) : PixelBuffer :=
  ⟨width, height, List.replicate height (List.replicate width (-1))⟩

/-- The method `setPixel`: write one cell after a bounds check, otherwise do
nothing. -/
def setPixel (b : PixelBuffer) (x y c : Int) : PixelBuffer :=
  if 0 ≤ x ∧ x < (b.width : Int) ∧ 0 ≤ y ∧ y < (b.height : Int) then
    { b with buffer := b.buffer.set y.toNat ((b.buffer.getD y.toNat []).set x.toNat c) }
  else b

/-- The method `getPixel`: read one cell after a bounds check, otherwise
return the transparent sentinel `-1`. -/
def getPixel (b : PixelBuffer) (x y : Int) : Int :=
  if 0 ≤ x ∧ x < (b.width : Int) ∧ 0 ≤ y ∧ y < (b.height : Int) then
    (b.buffer.getD y.toNat []).getD x.toNat (-1)
  else -1

/-- The method `fillRect`: row-major double loop of `setPixel` calls. -/
def fillRect (b : PixelBuffer) (x y w h c : Int) : PixelBuffer :=
  (List.range h.toNat).foldl (fun b1 dy =>
    (List.range w.toNat).foldl (fun b2 dx =>
      setPixel b2 (x + dx) (y + dy) c) b1) b

/-- The body of `drawLine`'s `while (true)` loop.  The loop always makes one
axis step per iteration after plotting, so `|x1-x0| + |y1-y0| + 1` rounds of
fuel (supplied by `drawLine`) always reach the terminating plot of the end
point; the fuel-0 case is unreachable. -/
def bresenham (x1 y1 sx sy dx dy c : Int) :
    Nat → PixelBuffer → Int → Int → Int → PixelBuffer
  | 0, b, _, _, _ => b
  | fuel + 1, b, x, y, err =>
    let b1 := setPixel b x y c
    if x = x1 ∧ y = y1 then b1
    else
      let e2 := 2 * err
      let err1 := if e2 > -dy then err - dy else err
      let x2 := if e2 > -dy then x + sx else x
      let err2 := if e2 < dx then err1 + dx else err1
      let y2 := if e2 < dx then y + sy else y
      bresenham x1 y1 sx sy dx dy c fuel b1 x2 y2 err2

/-- The method `drawLine`: Bresenham's algorithm, inclusive of both ends. -/
def drawLine (b : PixelBuffer) (x0 y0 x1 y1 c : Int) : PixelBuffer :=
  let dx : Int := |x1 - x0|
  let dy : Int := |y1 - y0|
  let sx : Int := if x0 < x1 then 1 else -1
  let sy : Int := if y0 < y1 then 1 else -1
  bresenham x1 y1 sx sy dx dy c (dx.toNat + dy.toNat + 1) b x0 y0 (dx - dy)

/-- The method `fillCircle`: every offset with `x² + y² ≤ r²` is painted. -/
def fillCircle (b : PixelBuffer) (cx cy r c : Int) : PixelBuffer :=
  (List.range (2 * r + 1).toNat).foldl (fun b1 i =>
    let y : Int := -r + i
    (List.range (2 * r + 1).toNat).foldl (fun b2 j =>
      let x : Int := -r + j
      if x * x + y * y ≤ r * r then setPixel b2 (cx + x) (cy + y) c else b2) b1) b

/-- The inner loop of `mirrorVertically` on one row, run for `x` up to `n`
(the method uses `n = ⌊w/2⌋`): `row[w-1-x] = row[x]`, reading the current
row state exactly as the in-place JS loop does. -/
def mirrorFold (w : Nat) (row : List Int) (n : Nat) : List Int :=
  (List.range n).foldl (fun r x => r.set (w - 1 - x) (r.getD x (-1))) row

/-- One row of `mirrorVertically`. -/
def mirrorRow (w : Nat) (row : List Int) : List Int := mirrorFold w row (w / 2)

/-- The method `mirrorVertically`: each row independently gets its right
half overwritten by the reflected left half. -/
def mirrorVertically (b : PixelBuffer) : PixelBuffer :=
  { b with buffer := b.buffer.map (mirrorRow b.width) }

/-- The method `getData` returns a defensive copy; in the immutable model it
is the grid itself. -/
def getData (b : PixelBuffer) : List (List Int) := b.buffer

/-- The method `clear`: reset every in-range cell to `-1` (the loop bounds
and the direct assignment coincide with `setPixel`'s guarded write). -/
def clear (b : PixelBuffer) : PixelBuffer :=
  (List.range b.height).foldl (fun b1 y =>
    (List.range b.width).foldl (fun b2 x => setPixel b2 x y (-1)) b1) b

/-- Well-formedness: the grid really has `height` rows of length `width`
(guaranteed by the constructor and preserved by every primitive). -/
def WF (b : PixelBuffer) : Prop :=
  b.buffer.length = b.height ∧ ∀ row ∈ b.buffer, row.length = b.width

instance (b : PixelBuffer) : Decidable (WF b) := by
  unfold WF; infer_instance

theorem mirrorFold_succ (w : Nat) (row : List Int) (n : Nat) :
    mirrorFold w row (n + 1) =
      (mirrorFold w row n).set (w - 1 - n) ((mirrorFold w row n).getD n (-1)) := by
  simp [mirrorFold, List.range_succ]

theorem mirrorFold_length (w : Nat) (row : List Int) (n : Nat) :
    (mirrorFold w row n).length = row.length := by
  induction n with
  | zero => rfl
  | succ n ih => rw [mirrorFold_succ, List.length_set, ih]

theorem mirrorFold_getElem (w : Nat) (row : List Int) (hlen : row.length = w) :
    ∀ n, n ≤ w / 2 → ∀ i : Nat,
      (mirrorFold w row n)[i]? = if w - n ≤ i ∧ i < w then row[w - 1 - i]? else row[i]? := by
  intro n
  induction n with
  | zero =>
    intro _ i
    rw [if_neg (by omega)]
    rfl
  | succ n ih =>
    intro hn i
    have hn2 : 2 * n < w := by omega
    have hrlen : (mirrorFold w row n).length = w := by rw [mirrorFold_length, hlen]
    have hval : (mirrorFold w row n).getD n (-1) = row.getD n (-1) := by
      rw [List.getD_eq_getElem?_getD, List.getD_eq_getElem?_getD,
        ih (by omega) n, if_neg (by omega)]
    rw [mirrorFold_succ, hval]
    by_cases hi : i = w - 1 - n
    · subst hi
      have hlt : w - 1 - n < (mirrorFold w row n).length := by omega
      rw [List.getElem?_set_self hlt, if_pos (by omega)]
      have hidx : w - 1 - (w - 1 - n) = n := by omega
      rw [hidx, List.getD_eq_getElem?_getD]
      have hnlt : n < row.length := by omega
      rw [List.getElem?_eq_getElem hnlt]
      rfl
    · rw [List.getElem?_set_ne (by omega), ih (by omega) i]
      by_cases hc : w - n ≤ i ∧ i < w
      · rw [if_pos hc, if_pos (by omega)]
      · by_cases hc2 : w - (n + 1) ≤ i ∧ i < w
        · omega
        · rw [if_neg hc, if_neg hc2]

theorem mirrorRow_length (w : Nat) (row : List Int) :
    (mirrorRow w row).length = row.length := mirrorFold_length w row (w / 2)

theorem mirrorRow_getElem (w : Nat) (row : List Int) (hlen : row.length = w)
    (i : Nat) :
    (mirrorRow w row)[i]? =
      if w - w / 2 ≤ i ∧ i < w then row[w - 1 - i]? else row[i]? :=
  mirrorFold_getElem w row hlen (w / 2) (le_refl _) i

/-- Row `y` of the buffer, as read by the drawing code. -/
def rowAt (b : PixelBuffer) (y : Nat) : List Int := b.buffer.getD y []

theorem rowAt_length {b : PixelBuffer} (hWF : WF b) {y : Nat}
    (hy : y < b.height) : (rowAt b y).length = b.width := by
  have hylen : y < b.buffer.length := by rw [hWF.1]; exact hy
  rw [rowAt, List.getD_eq_getElem?_getD, List.getElem?_eq_getElem hylen]
  exact hWF.2 _ (List.getElem_mem hylen)

theorem getPixel_natCast (b : PixelBuffer) (x y : Nat) (hx : x < b.width)
    (hy : y < b.height) :
    getPixel b (x : Int) (y : Int) = (rowAt b y).getD x (-1) := by
  have hcond : (0 : Int) ≤ (x : Int) ∧ (x : Int) < (b.width : Int) ∧
      (0 : Int) ≤ (y : Int) ∧ (y : Int) < (b.height : Int) :=
    ⟨Int.natCast_nonneg x, by exact_mod_cast hx, Int.natCast_nonneg y,
      by exact_mod_cast hy⟩
  rw [getPixel, if_pos hcond, Int.toNat_natCast, Int.toNat_natCast, rowAt]

theorem mirror_width (b : PixelBuffer) : (mirrorVertically b).width = b.width := rfl

theorem mirror_height (b : PixelBuffer) : (mirrorVertically b).height = b.height := rfl

theorem mirror_rowAt {b : PixelBuffer} (hWF : WF b) {y : Nat}
    (hy : y < b.height) :
    rowAt (mirrorVertically b) y = mirrorRow b.width (rowAt b y) := by
  have hylen : y < b.buffer.length := by rw [hWF.1]; exact hy
  simp only [rowAt, mirrorVertically]
  rw [List.getD_eq_getElem?_getD, List.getD_eq_getElem?_getD, List.getElem?_map,
    List.getElem?_eq_getElem hylen]
  rfl

theorem mirror_WF {b : PixelBuffer} (hWF : WF b) : WF (mirrorVertically b) := by
  refine ⟨?_, ?_⟩
  · simp only [mirrorVertically, List.length_map]
    exact hWF.1
  · intro row hrow
    simp only [mirrorVertically, List.mem_map] at hrow
    rcases hrow with ⟨r, hr, rfl⟩
    rw [mirrorRow_length]
    exact hWF.2 r hr

theorem rowAt_eq {b : PixelBuffer} {n : Nat} (hn : n < b.buffer.length) :
    rowAt b n = b.buffer[n] := by
  rw [rowAt, List.getD_eq_getElem?_getD, List.getElem?_eq_getElem hn]
  rfl

theorem mirrorRow_congr (w : Nat) (r1 r2 : List Int) (h1 : r1.length = w)
    (h2 : r2.length = w) (hagree : ∀ i, i < w - w / 2 → r1[i]? = r2[i]?) :
    mirrorRow w r1 = mirrorRow w r2 := by
  apply List.ext_getElem?
  intro i
  rw [mirrorRow_getElem w r1 h1 i, mirrorRow_getElem w r2 h2 i]
  by_cases hc : w - w / 2 ≤ i ∧ i < w
  · rw [if_pos hc, if_pos hc]
    exact hagree (w - 1 - i) (by omega)
  · rw [if_neg hc, if_neg hc]
    by_cases hi : i < w
    · exact hagree i (by omega)
    · rw [List.getElem?_eq_none (by omega), List.getElem?_eq_none (by omega)]

theorem mirrorRow_idem (w : Nat) (row : List Int) (hlen : row.length = w) :
    mirrorRow w (mirrorRow w row) = mirrorRow w row := by
  have hlen2 : (mirrorRow w row).length = w := by rw [mirrorRow_length, hlen]
  apply List.ext_getElem?
  intro i
  rw [mirrorRow_getElem w _ hlen2 i]
  by_cases hc : w - w / 2 ≤ i ∧ i < w
  · rw [if_pos hc, mirrorRow_getElem w row hlen, if_neg (by omega),
      mirrorRow_getElem w row hlen, if_pos hc]
  · rw [if_neg hc]

end PixelBuffer

/-- C7: `setPixel` and `getPixel` are total (they never throw), and on any
out-of-bounds integer coordinates `setPixel` returns the buffer unchanged
and `getPixel` returns the transparent sentinel `-1`. -/
theorem out_of_bounds_pixel_ops (b : PixelBuffer) (x y c : Int)
    (h : ¬(0 ≤ x ∧ x < (b.width : Int) ∧ 0 ≤ y ∧ y < (b.height : Int))) :
    b.setPixel x y c = b ∧ b.getPixel x y = -1 := by
  constructor
  · rw [PixelBuffer.setPixel, if_neg h]
  · rw [PixelBuffer.getPixel, if_neg h]

/-- Witness for `out_of_bounds_pixel_ops`: writing and reading at (16, 3) on
a fresh 16×16 buffer. -/
theorem out_of_bounds_pixel_ops_witness :
    ¬((0 : Int) ≤ 16 ∧ (16 : Int) < ((PixelBuffer.mkBuffer 16 16).width : Int) ∧
        (0 : Int) ≤ 3 ∧ (3 : Int) < ((PixelBuffer.mkBuffer 16 16).height : Int))
  ∧ (PixelBuffer.mkBuffer 16 16).setPixel 16 3 7 = PixelBuffer.mkBuffer 16 16
  ∧ (PixelBuffer.mkBuffer 16 16).getPixel 16 3 = -1 :=
  ⟨by decide, out_of_bounds_pixel_ops (PixelBuffer.mkBuffer 16 16) 16 3 7 (by decide)⟩

/-- C8: after `mirrorVertically`, for every row `y` and every `x < ⌊w/2⌋`,
the cell at `(w-1-x, y)` equals the old cell at `(x, y)`; the left half is
unchanged; and the result does not depend on the prior contents of the
strictly-right half (cells at `i ≥ w - ⌊w/2⌋`), which is unconditionally
overwritten. -/
theorem mirror_right_half_spec (b : PixelBuffer) (hWF : b.WF) (x y : Nat)
    (hy : y < b.height) (hx : x < b.width / 2) :
    (b.mirrorVertically).getPixel ((b.width - 1 - x : Nat) : Int) (y : Int) =
      b.getPixel (x : Int) (y : Int)
  ∧ (b.mirrorVertically).getPixel (x : Int) (y : Int) = b.getPixel (x : Int) (y : Int)
  ∧ ∀ b2 : PixelBuffer, b2.WF → b2.width = b.width → b2.height = b.height →
      (∀ i j : Nat, j < b.height → i < b.width - b.width / 2 →
        b2.getPixel (i : Int) (j : Int) = b.getPixel (i : Int) (j : Int)) →
      b2.mirrorVertically = b.mirrorVertically := by
  have hw2 : 2 ≤ b.width := by omega
  have hrlen : (PixelBuffer.rowAt b y).length = b.width := PixelBuffer.rowAt_length hWF hy
  have hmlen : (PixelBuffer.rowAt b.mirrorVertically y).length = b.width :=
    PixelBuffer.rowAt_length (PixelBuffer.mirror_WF hWF) hy
  refine ⟨?_, ?_, ?_⟩
  · rw [PixelBuffer.getPixel_natCast b.mirrorVertically (b.width - 1 - x) y
      (by rw [PixelBuffer.mirror_width]; omega) hy,
      PixelBuffer.getPixel_natCast b x y (by omega) hy,
      PixelBuffer.mirror_rowAt hWF hy, List.getD_eq_getElem?_getD,
      PixelBuffer.mirrorRow_getElem _ _ hrlen, if_pos (by omega)]
    have hidx : b.width - 1 - (b.width - 1 - x) = x := by omega
    rw [hidx, List.getD_eq_getElem?_getD]
  · rw [PixelBuffer.getPixel_natCast b.mirrorVertically x y
      (by rw [PixelBuffer.mirror_width]; omega) hy,
      PixelBuffer.getPixel_natCast b x y (by omega) hy,
      PixelBuffer.mirror_rowAt hWF hy, List.getD_eq_getElem?_getD,
      PixelBuffer.mirrorRow_getElem _ _ hrlen, if_neg (by omega),
      List.getD_eq_getElem?_getD]
  · intro b2 hWF2 hw hh hagree
    have hbuf : List.map (PixelBuffer.mirrorRow b.width) b2.buffer =
        List.map (PixelBuffer.mirrorRow b.width) b.buffer := by
      apply List.ext_getElem?
      intro n
      rw [List.getElem?_map, List.getElem?_map]
      by_cases hn : n < b.height
      · have hn2 : n < b2.buffer.length := by rw [hWF2.1, hh]; exact hn
        have hn1 : n < b.buffer.length := by rw [hWF.1]; exact hn
        rw [List.getElem?_eq_getElem hn1, List.getElem?_eq_getElem hn2]
        simp only [Option.map_some']
        congr 1
        have hl2 : b2.buffer[n].length = b.width := by
          rw [← hw]; exact hWF2.2 _ (List.getElem_mem hn2)
        have hl1 : b.buffer[n].length = b.width := hWF.2 _ (List.getElem_mem hn1)
        apply PixelBuffer.mirrorRow_congr b.width _ _ hl2 hl1
        intro i hi
        have hi2 : i < b2.buffer[n].length := by omega
        have hi1 : i < b.buffer[n].length := by omega
        have hgp := hagree i n hn hi
        rw [PixelBuffer.getPixel_natCast b2 i n (by omega) (by rw [hh]; exact hn),
          PixelBuffer.getPixel_natCast b i n (by omega) hn,
          PixelBuffer.rowAt_eq hn2, PixelBuffer.rowAt_eq hn1,
          List.getD_eq_getElem?_getD, List.getD_eq_getElem?_getD,
          List.getElem?_eq_getElem hi2, List.getElem?_eq_getElem hi1] at hgp
        simp only [Option.getD_some] at hgp
        rw [List.getElem?_eq_getElem hi2, List.getElem?_eq_getElem hi1, hgp]
      · have h2n : b2.buffer.length ≤ n := by rw [hWF2.1, hh]; omega
        have h1n : b.buffer.length ≤ n := by rw [hWF.1]; omega
        rw [List.getElem?_eq_none h2n, List.getElem?_eq_none h1n]
    simp only [PixelBuffer.mirrorVertically]
    rw [hw, hh, hbuf]

/-- Witness for `mirror_right_half_spec` on a concrete 4×2 buffer with one
left-half pixel set, at row 1, column 0. -/
theorem mirror_right_half_spec_witness :
    ((PixelBuffer.mkBuffer 4 2).setPixel 0 1 5).WF
  ∧ (((PixelBuffer.mkBuffer 4 2).setPixel 0 1 5).mirrorVertically).getPixel 3 1 =
      ((PixelBuffer.mkBuffer 4 2).setPixel 0 1 5).getPixel 0 1 :=
  ⟨by decide,
    ((mirror_right_half_spec ((PixelBuffer.mkBuffer 4 2).setPixel 0 1 5)
      (by decide) 0 1 (by decide) (by decide)).1)⟩

/-- C10: `mirrorVertically` is idempotent: a second call copies the
unchanged left half onto a right half that already holds its reflection. -/
theorem mirror_idempotent (b : PixelBuffer) (hWF : b.WF) :
    b.mirrorVertically.mirrorVertically = b.mirrorVertically := by
  simp only [PixelBuffer.mirrorVertically, List.map_map]
  congr 1
  apply List.map_congr_left
  intro row hrow
  exact PixelBuffer.mirrorRow_idem b.width row (hWF.2 row hrow)

/-- Witness for `mirror_idempotent` on a concrete asymmetric 4×2 buffer. -/
theorem mirror_idempotent_witness :
    ((PixelBuffer.mkBuffer 4 2).setPixel 1 0 9).WF
  ∧ ((PixelBuffer.mkBuffer 4 2).setPixel 1 0 9).mirrorVertically.mirrorVertically =
      ((PixelBuffer.mkBuffer 4 2).setPixel 1 0 9).mirrorVertically :=
  ⟨by decide, mirror_idempotent ((PixelBuffer.mkBuffer 4 2).setPixel 1 0 9) (by decide)⟩

/-! Avatar engine (`engine.ts`, types from `types.ts`).  The private mutable
fields become explicit state threading: every PRNG-consuming routine takes
the current state and returns the updated one. -/

inductive JawShape | round | square | pointed
deriving DecidableEq, Inhabited

inductive EyeShape | normal | smile | wink | closed | wide | surprised
deriving DecidableEq, Inhabited

inductive BrowShape | thin | thick | angry | curved
deriving DecidableEq, Inhabited

/-- Nose shapes `"dot" | "line" | "T"`. -/
inductive NoseShape | dot | line | T
deriving DecidableEq, Inhabited

/-- Mouth shapes; the TS `"open"` variant is `openM` (`open` is reserved). -/
inductive MouthShape | neutral | smile | teeth | openM | wow | flat
deriving DecidableEq, Inhabited

inductive HairStyle | short | medium | long | bald | bun | afro | undercut
deriving DecidableEq, Inhabited

inductive FacialHair | stubble | mustache | goatee
deriving DecidableEq, Inhabited

inductive GlassesKind | round | square
deriving DecidableEq, Inhabited

inductive HatKind | cap | beanie
deriving DecidableEq, Inhabited

inductive ClothesStyle | collar | hoodie | tshirt
deriving DecidableEq, Inhabited

inductive Mood | neutral | smile | wink | surprised | angry
deriving DecidableEq, Inhabited

inductive Gender | auto | androgynous | masc | fem
deriving DecidableEq, Inhabited

structure Accessories where
  glasses : Option GlassesKind
  earrings : Bool
  hat : Option HatKind
deriving DecidableEq

structure AvatarFeatures where
  skinTone : Nat
  jawShape : JawShape
  eyeShape : EyeShape
  browShape : BrowShape
  noseShape : NoseShape
  mouthShape : MouthShape
  hairStyle : HairStyle
  hairColor : Nat
  facialHair : Option FacialHair
  accessories : Accessories
  clothesStyle : ClothesStyle
  clothesColor : Nat
deriving DecidableEq

/-- The method `generateFeatures`: one object literal whose fields are
evaluated top to bottom, each PRNG call consuming one draw; the facial-hair,
glasses and hat kind draws happen only when the corresponding chance draw
succeeded. -/
def generateFeatures (pal : Palette) (s0 : Nat) : AvatarFeatures × Nat :=
  let (skinTone, s1) := XorShift32.int s0 pal.skin.length
  let (jawShape, s2) := XorShift32.pick s1 [JawShape.round, JawShape.square, JawShape.pointed]
  let (eyeShape, s3) := XorShift32.pick s2 [EyeShape.normal, EyeShape.smile,
    EyeShape.wink, EyeShape.closed, EyeShape.wide, EyeShape.surprised]
  let (browShape, s4) := XorShift32.pick s3 [BrowShape.thin, BrowShape.thick,
    BrowShape.angry, BrowShape.curved]
  let (noseShape, s5) := XorShift32.pick s4 [NoseShape.dot, NoseShape.line, NoseShape.T]
  let (mouthShape, s6) := XorShift32.pick s5 [MouthShape.neutral, MouthShape.smile,
    MouthShape.teeth, MouthShape.openM, MouthShape.wow, MouthShape.flat]
  let (hairStyle, s7) := XorShift32.pick s6 [HairStyle.short, HairStyle.medium,
    HairStyle.long, HairStyle.bald, HairStyle.bun, HairStyle.afro, HairStyle.undercut]
  let (hairColor, s8) := XorShift32.int s7 pal.hair.length
  let (fhPresent, s9) := XorShift32.chance s8 (3/10)
  let (facialHair, s10) :=
    if fhPresent then
      let (k, s) := XorShift32.pick s9 [FacialHair.stubble, FacialHair.mustache,
        FacialHair.goatee]
      (some k, s)
    else (none, s9)
  let (gPresent, s11) := XorShift32.chance s10 (1/4)
  let (glasses, s12) :=
    if gPresent then
      let (k, s) := XorShift32.pick s11 [GlassesKind.round, GlassesKind.square]
      (some k, s)
    else (none, s11)
  let (earrings, s13) := XorShift32.chance s12 (3/20)
  let (hPresent, s14) := XorShift32.chance s13 (1/5)
  let (hat, s15) :=
    if hPresent then
      let (k, s) := XorShift32.pick s14 [HatKind.cap, HatKind.beanie]
      (some k, s)
    else (none, s14)
  let (clothesStyle, s16) := XorShift32.pick s15 [ClothesStyle.collar,
    ClothesStyle.hoodie, ClothesStyle.tshirt]
  let (clothesColor, s17) := XorShift32.int s16 pal.clothes.length
  (⟨skinTone, jawShape, eyeShape, browShape, noseShape, mouthShape, hairStyle,
    hairColor, facialHair, ⟨glasses, earrings, hat⟩, clothesStyle, clothesColor⟩, s17)

/-- Stream of PRNG draw values from initial state `s0`: `streamVal s0 i` is
the value returned by the (i+1)-st call to `next()`. -/
def streamVal (s0 : Nat) : Nat → Nat
  | 0 => XorShift32.next s0
  | i + 1 => XorShift32.next (streamVal s0 i)

/-- Outcome of a `chance(p)` call as a function of its drawn stream value. -/
def chanceVal (v : Nat) (p : ℚ) : Bool := decide ((v : ℚ) / 4294967296 < p)

theorem ite_fst {α β : Type} (c : Prop) [Decidable c] (a b : α × β) :
    (if c then a else b).1 = if c then a.1 else b.1 := by
  split <;> rfl

theorem ite_snd {α β : Type} (c : Prop) [Decidable c] (a b : α × β) :
    (if c then a else b).2 = if c then a.2 else b.2 := by
  split <;> rfl

theorem next_ite (c : Prop) [Decidable c] (a b : Nat) :
    XorShift32.next (if c then a else b) =
      if c then XorShift32.next a else XorShift32.next b := by
  split <;> rfl

set_option maxHeartbeats 2000000 in
/-- C3: `generateFeatures` consumes the PRNG in the fixed order
skin-tone (draw 0), jaw (1), eye (2), brow (3), nose (4), mouth (5),
hair style (6), hair color (7), facial-hair presence (8) then kind (9, only
if present), glasses presence then kind, earrings, hat presence then kind,
clothes style, clothes color; the optional kind draws shift all later draw
indices, and the returned PRNG state is the value of the last draw, so a
given seed always yields the same feature set. -/
theorem generateFeatures_draw_order (pal : Palette) (seed : Nat) :
    generateFeatures pal (XorShift32.init seed) =
      (let v := streamVal (XorShift32.init seed)
       let fh := chanceVal (v 8) (3/10)
       let a := if fh then 10 else 9
       let gl := chanceVal (v a) (1/4)
       let b := if gl then a + 2 else a + 1
       let ht := chanceVal (v (b + 1)) (1/5)
       let c := if ht then b + 3 else b + 2
       (⟨v 0 % pal.skin.length,
         [JawShape.round, JawShape.square, JawShape.pointed].getD (v 1 % 3) default,
         [EyeShape.normal, EyeShape.smile, EyeShape.wink, EyeShape.closed,
          EyeShape.wide, EyeShape.surprised].getD (v 2 % 6) default,
         [BrowShape.thin, BrowShape.thick, BrowShape.angry,
          BrowShape.curved].getD (v 3 % 4) default,
         [NoseShape.dot, NoseShape.line, NoseShape.T].getD (v 4 % 3) default,
         [MouthShape.neutral, MouthShape.smile, MouthShape.teeth, MouthShape.openM,
          MouthShape.wow, MouthShape.flat].getD (v 5 % 6) default,
         [HairStyle.short, HairStyle.medium, HairStyle.long, HairStyle.bald,
          HairStyle.bun, HairStyle.afro, HairStyle.undercut].getD (v 6 % 7) default,
         v 7 % pal.hair.length,
         if fh then
           some ([FacialHair.stubble, FacialHair.mustache,
             FacialHair.goatee].getD (v 9 % 3) default)
         else none,
         ⟨if gl then
            some ([GlassesKind.round, GlassesKind.square].getD (v (a + 1) % 2) default)
          else none,
          chanceVal (v b) (3/20),
          if ht then
            some ([HatKind.cap, HatKind.beanie].getD (v (b + 2) % 2) default)
          else none⟩,
         [ClothesStyle.collar, ClothesStyle.hoodie,
          ClothesStyle.tshirt].getD (v c % 3) default,
         v (c + 1) % pal.clothes.length⟩, v (c + 1))) := by
  have h0 : XorShift32.next (XorShift32.init seed) = streamVal (XorShift32.init seed) 0 := rfl
  have h1 : XorShift32.next (streamVal (XorShift32.init seed) 0) = streamVal (XorShift32.init seed) 1 := rfl
  have h2 : XorShift32.next (streamVal (XorShift32.init seed) 1) = streamVal (XorShift32.init seed) 2 := rfl
  have h3 : XorShift32.next (streamVal (XorShift32.init seed) 2) = streamVal (XorShift32.init seed) 3 := rfl
  have h4 : XorShift32.next (streamVal (XorShift32.init seed) 3) = streamVal (XorShift32.init seed) 4 := rfl
  have h5 : XorShift32.next (streamVal (XorShift32.init seed) 4) = streamVal (XorShift32.init seed) 5 := rfl
  have h6 : XorShift32.next (streamVal (XorShift32.init seed) 5) = streamVal (XorShift32.init seed) 6 := rfl
  have h7 : XorShift32.next (streamVal (XorShift32.init seed) 6) = streamVal (XorShift32.init seed) 7 := rfl
  have h8 : XorShift32.next (streamVal (XorShift32.init seed) 7) = streamVal (XorShift32.init seed) 8 := rfl
  have h9 : XorShift32.next (streamVal (XorShift32.init seed) 8) = streamVal (XorShift32.init seed) 9 := rfl
  have h10 : XorShift32.next (streamVal (XorShift32.init seed) 9) = streamVal (XorShift32.init seed) 10 := rfl
  have h11 : XorShift32.next (streamVal (XorShift32.init seed) 10) = streamVal (XorShift32.init seed) 11 := rfl
  have h12 : XorShift32.next (streamVal (XorShift32.init seed) 11) = streamVal (XorShift32.init seed) 12 := rfl
  have h13 : XorShift32.next (streamVal (XorShift32.init seed) 12) = streamVal (XorShift32.init seed) 13 := rfl
  have h14 : XorShift32.next (streamVal (XorShift32.init seed) 13) = streamVal (XorShift32.init seed) 14 := rfl
  have h15 : XorShift32.next (streamVal (XorShift32.init seed) 14) = streamVal (XorShift32.init seed) 15 := rfl
  have h16 : XorShift32.next (streamVal (XorShift32.init seed) 15) = streamVal (XorShift32.init seed) 16 := rfl
  have h17 : XorShift32.next (streamVal (XorShift32.init seed) 16) = streamVal (XorShift32.init seed) 17 := rfl
  simp only [generateFeatures, XorShift32.int, XorShift32.pick, XorShift32.chance,
    chanceVal, List.length_cons, List.length_nil, decide_eq_true_eq,
    ite_fst, ite_snd, next_ite, h0, h1, h2, h3, h4, h5, h6, h7, h8, h9, h10, h11, h12, h13, h14, h15, h16, h17]
  split_ifs <;> simp [h0, h1, h2, h3, h4, h5, h6, h7, h8, h9, h10, h11, h12, h13, h14, h15, h16, h17]

/-- The method `applyMood`: overwrite mood-specific fields, consuming
further draws where a choice remains. -/
def applyMood (mood : Mood) (f : AvatarFeatures) (s : Nat) : AvatarFeatures × Nat :=
  match mood with
  | Mood.smile =>
    let (e, s1) := XorShift32.pick s [EyeShape.normal, EyeShape.smile]
    ({ f with mouthShape := MouthShape.smile, eyeShape := e }, s1)
  | Mood.wink =>
    let (m, s1) := XorShift32.pick s [MouthShape.smile, MouthShape.neutral]
    ({ f with eyeShape := EyeShape.wink, mouthShape := m }, s1)
  | Mood.surprised =>
    let (b, s1) := XorShift32.pick s [BrowShape.thin, BrowShape.curved]
    ({ f with eyeShape := EyeShape.wide, mouthShape := MouthShape.openM, browShape := b }, s1)
  | Mood.angry =>
    let (m, s1) := XorShift32.pick s [MouthShape.flat, MouthShape.neutral]
    let (e, s2) := XorShift32.pick s1 [EyeShape.normal, EyeShape.closed]
    ({ f with browShape := BrowShape.angry, mouthShape := m, eyeShape := e }, s2)
  | Mood.neutral => (f, s)

/-- The method `applyGender`: `fem` and `masc` bias passes; `auto` and
`androgynous` leave the features untouched. -/
def applyGender (g : Gender) (f : AvatarFeatures) (s : Nat) : AvatarFeatures × Nat :=
  match g with
  | Gender.fem =>
    let (c1, s1) := XorShift32.chance s (7/10)
    let (f1, s2) :=
      if c1 then
        let (h, s') := XorShift32.pick s1 [HairStyle.medium, HairStyle.long, HairStyle.bun]
        ({ f with hairStyle := h }, s')
      else (f, s1)
    let (e, s3) := XorShift32.chance s2 (2/5)
    ({ f1 with accessories := { f1.accessories with earrings := e } }, s3)
  | Gender.masc =>
    let (c1, s1) := XorShift32.chance s (3/5)
    let (f1, s2) :=
      if c1 then
        let (h, s') := XorShift32.pick s1 [HairStyle.short, HairStyle.undercut, HairStyle.bald]
        ({ f with hairStyle := h }, s')
      else (f, s1)
    let (c2, s3) := XorShift32.chance s2 (1/2)
    let (fh, s4) :=
      if c2 then
        let (k, s') := XorShift32.pick s3 [FacialHair.stubble, FacialHair.mustache,
          FacialHair.goatee]
        (some k, s')
      else (none, s3)
    ({ f1 with facialHair := fh }, s4)
  | _ => (f, s)

/-- Skin color index used by the head/neck/shoulder drawing methods:
`palette.colors.indexOf(palette.skin[features.skinTone])`. -/
def skinIndex (pal : Palette) (f : AvatarFeatures) : Int :=
  jsIndexOf pal.colors (pal.skin.getD f.skinTone "")

/-- The method `drawHead`. -/
def drawHead (pal : Palette) (f : AvatarFeatures) (b : PixelBuffer) : PixelBuffer :=
  let si := skinIndex pal f
  match f.jawShape with
  | JawShape.round => b.fillCircle 8 7 5 si
  | JawShape.square => b.fillRect 4 3 8 8 si
  | JawShape.pointed => (b.fillCircle 8 6 5 si).fillRect 6 10 4 1 si

/-- The method `drawNeck`. -/
def drawNeck (pal : Palette) (f : AvatarFeatures) (b : PixelBuffer) : PixelBuffer :=
  b.fillRect 6 11 4 2 (skinIndex pal f)

/-- The method `drawShoulders`. -/
def drawShoulders (pal : Palette) (f : AvatarFeatures) (b : PixelBuffer) : PixelBuffer :=
  ((b.fillRect 2 13 4 3 (skinIndex pal f)).fillRect 10 13 4 3 (skinIndex pal f))

/-- The method `drawShirt` (the t-shirt branch consumes a `chance` draw). -/
def drawShirt (pal : Palette) (f : AvatarFeatures) (b : PixelBuffer) (s : Nat) :
    PixelBuffer × Nat :=
  let cci := jsIndexOf pal.colors (pal.clothes.getD f.clothesColor "")
  let aci := jsIndexOf pal.colors (pal.accent.getD 0 "")
  match f.clothesStyle with
  | ClothesStyle.collar =>
    ((((b.fillRect 3 13 10 3 cci).drawLine 6 12 9 12 aci).setPixel 7 13
        aci).setPixel 8 14 aci, s)
  | ClothesStyle.hoodie =>
    ((((b.fillRect 2 13 12 3 cci).setPixel 6 12 aci).setPixel 9 12
        aci).drawLine 5 15 10 15 aci, s)
  | ClothesStyle.tshirt =>
    let b1 := b.fillRect 3 13 10 3 cci
    let (c, s1) := XorShift32.chance s (3/10)
    if c then
      (((b1.setPixel 8 14 aci).setPixel 7 15 aci).setPixel 9 15 aci, s1)
    else (b1, s1)

/-- The method `drawEyes` (the eye color is a fresh `pick` over the eye
sublist, consuming one draw). -/
def drawEyes (pal : Palette) (f : AvatarFeatures) (b : PixelBuffer) (s : Nat) :
    PixelBuffer × Nat :=
  let (idx, s1) := XorShift32.int s pal.eyes.length
  let ec := jsIndexOf pal.colors (pal.eyes.getD idx "")
  let b1 :=
    match f.eyeShape with
    | EyeShape.normal => (b.setPixel 5 6 ec).setPixel 10 6 ec
    | EyeShape.smile => (b.setPixel 5 7 ec).setPixel 10 7 ec
    | EyeShape.wink => (b.setPixel 5 6 ec).drawLine 9 6 11 6 ec
    | EyeShape.closed => (b.drawLine 4 6 6 6 ec).drawLine 9 6 11 6 ec
    | EyeShape.wide => (b.fillRect 4 6 2 2 ec).fillRect 9 6 2 2 ec
    | EyeShape.surprised => (b.fillCircle 5 6 1 ec).fillCircle 10 6 1 ec
  (b1, s1)

/-- The method `drawBrows` (brow color is the fixed index 0). -/
def drawBrows (f : AvatarFeatures) (b : PixelBuffer) : PixelBuffer :=
  match f.browShape with
  | BrowShape.thin => (b.setPixel 5 4 0).setPixel 10 4 0
  | BrowShape.thick => (b.fillRect 4 4 2 1 0).fillRect 9 4 2 1 0
  | BrowShape.angry => (b.drawLine 4 5 6 3 0).drawLine 9 3 11 5 0
  | BrowShape.curved =>
    (((((b.setPixel 4 4 0).setPixel 5 3 0).setPixel 6 4 0).setPixel 9 4
        0).setPixel 10 3 0).setPixel 11 4 0

/-- The method `drawNose`. -/
def drawNose (f : AvatarFeatures) (b : PixelBuffer) : PixelBuffer :=
  match f.noseShape with
  | NoseShape.dot => b.setPixel 8 8 0
  | NoseShape.line => b.drawLine 8 7 8 9 0
  | NoseShape.T => (b.drawLine 8 7 8 9 0).drawLine 7 9 9 9 0

/-- The method `drawMouth`. -/
def drawMouth (f : AvatarFeatures) (b : PixelBuffer) : PixelBuffer :=
  match f.mouthShape with
  | MouthShape.neutral => b.drawLine 7 11 9 11 0
  | MouthShape.smile => ((b.setPixel 7 11 0).setPixel 8 10 0).setPixel 9 11 0
  | MouthShape.teeth => (b.drawLine 6 11 10 11 0).setPixel 8 12 1
  | MouthShape.openM => b.fillRect 7 11 2 2 0
  | MouthShape.wow => b.fillCircle 8 11 1 0
  | MouthShape.flat => b.drawLine 6 11 10 11 0

/-- Hair color index: `palette.colors.indexOf(palette.hair[features.hairColor])`. -/
def hairIndex (pal : Palette) (f : AvatarFeatures) : Int :=
  jsIndexOf pal.colors (pal.hair.getD f.hairColor "")

/-- The method `drawHair` (a present hat shortens the hair block). -/
def drawHair (pal : Palette) (f : AvatarFeatures) (b : PixelBuffer) : PixelBuffer :=
  let hci := hairIndex pal f
  let hairHeight : Int := if f.accessories.hat.isSome then 2 else 3
  match f.hairStyle with
  | HairStyle.short => b.fillRect 4 1 8 hairHeight hci
  | HairStyle.medium =>
    ((b.fillRect 3 1 10 (hairHeight + 1) hci).fillRect 2 4 2 2 hci).fillRect 12 4 2 2 hci
  | HairStyle.long =>
    ((b.fillRect 3 1 10 (hairHeight + 1) hci).fillRect 1 4 3 4 hci).fillRect 12 4 3 4 hci
  | HairStyle.bald => b
  | HairStyle.bun => (b.fillRect 4 1 8 2 hci).fillCircle 8 0 1 hci
  | HairStyle.afro => b.fillCircle 8 3 5 hci
  | HairStyle.undercut =>
    ((b.fillRect 5 1 6 3 hci).fillRect 3 4 2 1 hci).fillRect 11 4 2 1 hci

/-- The method `drawFacialHair` (the stubble branch runs an 8-round loop of
`chance`/`int` draws). -/
def drawFacialHair (pal : Palette) (f : AvatarFeatures) (b : PixelBuffer)
    (s : Nat) : PixelBuffer × Nat :=
  match f.facialHair with
  | none => (b, s)
  | some kind =>
    let hci := hairIndex pal f
    match kind with
    | FacialHair.stubble =>
      (List.range 8).foldl (fun (st : PixelBuffer × Nat) _ =>
        let (c, s1) := XorShift32.chance st.2 (3/10)
        if c then
          let (xo, s2) := XorShift32.int s1 8
          let (yo, s3) := XorShift32.int s2 2
          (st.1.setPixel (4 + (xo : Int)) (12 + (yo : Int)) hci, s3)
        else (st.1, s1)) (b, s)
    | FacialHair.mustache => (b.fillRect 6 9 4 1 hci, s)
    | FacialHair.goatee => (b.fillRect 7 12 2 2 hci, s)

/-- The method `drawAccessories`: glasses, earrings, hat (hat color reuses
the clothes color). -/
def drawAccessories (pal : Palette) (f : AvatarFeatures) (b : PixelBuffer) :
    PixelBuffer :=
  let b1 :=
    match f.accessories.glasses with
    | none => b
    | some GlassesKind.round =>
      (((((b.fillCircle 5 6 2 0).fillCircle 10 6 2 0).setPixel 5 6
          (-1)).setPixel 10 6 (-1)).drawLine 7 6 8 6 0)
    | some GlassesKind.square =>
      (((((b.fillRect 3 5 4 3 0).fillRect 9 5 4 3 0).fillRect 4 6 2 1
          (-1)).fillRect 10 6 2 1 (-1)).drawLine 7 6 8 6 0)
  let b2 :=
    if f.accessories.earrings then (b1.setPixel 3 7 0).setPixel 12 7 0 else b1
  match f.accessories.hat with
  | none => b2
  | some HatKind.cap =>
    let hc := jsIndexOf pal.colors (pal.clothes.getD f.clothesColor "")
    (b2.fillRect 3 0 10 3 hc).fillRect 1 2 4 1 hc
  | some HatKind.beanie =>
    let hc := jsIndexOf pal.colors (pal.clothes.getD f.clothesColor "")
    b2.fillRect 4 0 8 4 hc

/-- The method `addAsymmetry`: single-earring removal, beauty mark, and a
left-side hair perturbation; the `&&` short-circuits mean the chance draws
happen only when the guarding feature test passes. -/
def addAsymmetry (pal : Palette) (f : AvatarFeatures) (b : PixelBuffer)
    (s : Nat) : PixelBuffer × Nat :=
  let (b1, s1) :=
    if f.accessories.earrings then
      let (c, s') := XorShift32.chance s (3/10)
      if c then (b.setPixel 12 7 (-1), s') else (b, s')
    else (b, s)
  let (c2, s2) := XorShift32.chance s1 (1/10)
  let (b2, s3) :=
    if c2 then
      let (xo, s') := XorShift32.int s2 8
      let (yo, s'') := XorShift32.int s' 4
      (b1.setPixel (4 + (xo : Int)) (7 + (yo : Int)) 0, s'')
    else (b1, s2)
  if f.hairStyle ≠ HairStyle.bald then
    let (c3, s4) := XorShift32.chance s3 (1/5)
    if c3 then
      let hci := hairIndex pal f
      let (xo, s5) := XorShift32.int s4 2
      let (yo, s6) := XorShift32.int s5 3
      (b2.setPixel (2 + (xo : Int)) (3 + (yo : Int)) hci, s6)
    else (b2, s4)
  else (b2, s3)

/-- The constructor plus the method `generate`: build PRNG and features,
apply mood and gender biases, clear the 16×16 buffer, draw the layers back
to front, mirror, and add asymmetry.  Returns the finished buffer. -/
def avatarGenerate (seed : Nat) (paletteName : String) (mood : Mood)
    (gender : Gender) : PixelBuffer :=
  let pal := getPalette paletteName
  let s0 := XorShift32.init seed
  let (f0, s1) := generateFeatures pal s0
  let (f1, s2) := applyMood mood f0 s1
  let (f, s3) := applyGender gender f1 s2
  let b0 := (PixelBuffer.mkBuffer 16 16).clear
  let b1 := drawShoulders pal f b0
  let (b2, s4) := drawShirt pal f b1 s3
  let b3 := drawNeck pal f b2
  let b4 := drawHead pal f b3
  let b5 := drawHair pal f b4
  let b6 := drawBrows f b5
  let (b7, s5) := drawEyes pal f b6 s4
  let b8 := drawNose f b7
  let b9 := drawMouth f b8
  let (b10, s6) := drawFacialHair pal f b9 s5
  let b11 := drawAccessories pal f b10
  let b12 := b11.mirrorVertically
  (addAsymmetry pal f b12 s6).1

/-! Encoders (`exporters.ts`).  Byte sequences are lists of naturals below
256. -/

/-- Big-endian 32-bit write (`writeUInt32BE`). -/
def u32be (n : Nat) : List Nat :=
  [n / 16777216 % 256, n / 65536 % 256, n / 256 % 256, n % 256]

/-- Little-endian 16-bit write (`writeUInt16LE`). -/
def u16le (n : Nat) : List Nat := [n % 256, n / 256 % 256]

/-- One entry of the CRC-32 table: eight rounds of the reflected polynomial
`0xEDB88320`. -/
def crcTableEntry (i : Nat) : Nat :=
  (List.range 8).foldl
    (fun c _ => if c % 2 = 1 then 0xEDB88320 ^^^ (c >>> 1) else c >>> 1) i

/-- The function `crc32`. -/
def crc32 (data : List Nat) : Nat :=
  (data.foldl (fun crc b => crcTableEntry ((crc ^^^ b) &&& 255) ^^^ (crc >>> 8))
    0xFFFFFFFF) ^^^ 0xFFFFFFFF

/-- The fixed 8-byte PNG signature. -/
def pngSignature : List Nat := [137, 80, 78, 71, 13, 10, 26, 10]

/-- The fixed 12-byte IEND chunk. -/
def iendChunk : List Nat := [0, 0, 0, 0, 73, 69, 78, 68, 174, 66, 96, 130]

/-- The 25-byte IHDR chunk: length 13, tag, width, height, bit depth 8,
color type 6 (RGBA), compression 0, filter 0, interlace 0, CRC over bytes
4–20. -/
def ihdrChunk (w h : Nat) : List Nat :=
  let body := [73, 72, 68, 82] ++ u32be w ++ u32be h ++ [8, 6, 0, 0, 0]
  u32be 13 ++ body ++ u32be (crc32 body)

/-- The IDAT chunk around the compressed scanline stream. -/
def idatChunk (compressed : List Nat) : List Nat :=
  let body := [73, 68, 65, 84] ++ compressed
  u32be compressed.length ++ body ++ u32be (crc32 body)

/-- The function `deflate`: stored (uncompressed) blocks of at most 65535
bytes, each headed by BFINAL/BTYPE, LEN and NLEN (`~LEN & 0xffff`, i.e.
`65535 - LEN`). -/
def deflateStored (data : List Nat) : List Nat :=
  if data.length = 0 then []
  else if data.length ≤ 65535 then
    1 :: (u16le data.length ++ u16le (65535 - data.length) ++ data)
  else
    0 :: (u16le 65535 ++ u16le 0 ++ data.take 65535 ++ deflateStored (data.drop 65535))
termination_by data.length
decreasing_by simp [List.length_drop]; omega

/-- The scanline serialization of `generatePNG`: one filter byte 0 per row,
then the four RGBA bytes of each pixel, missing entries read as 0
(`data[srcIndex] || 0`). -/
def scanlines (data : List Nat) (w h : Nat) : List Nat :=
  ((List.range h).map (fun y =>
    0 :: ((List.range w).map (fun x =>
      [data.getD ((y * w + x) * 4) 0, data.getD ((y * w + x) * 4 + 1) 0,
       data.getD ((y * w + x) * 4 + 2) 0,
       data.getD ((y * w + x) * 4 + 3) 0])).flatten)).flatten

/-- The function `generatePNG`: signature ++ IHDR ++ IDAT ++ IEND.  The
surrounding `try`/`catch` of the source cannot fire in the pure model, so
the hardcoded minimal-PNG catch branch (`minimalPNG` below) is dead code
here. -/
def generatePNG (data : List Nat) (w h : Nat) : List Nat :=
  pngSignature ++ ihdrChunk w h ++
    idatChunk (deflateStored (scanlines data w h)) ++ iendChunk

/-- The hardcoded byte literal returned by `generatePNG`'s catch branch. -/
def minimalPNG : List Nat :=
  [137, 80, 78, 71, 13, 10, 26, 10,
   0, 0, 0, 13, 73, 72, 68, 82, 0, 0, 0, 1, 0, 0, 0, 1, 8, 6, 0, 0, 0,
   31, 21, 196, 137,
   0, 0, 0, 10, 73, 68, 65, 84, 120, 156, 98, 0, 0, 0, 2, 0, 1,
   226, 33, 188, 51,
   0, 0, 0, 0, 73, 69, 78, 68, 174, 66, 96, 130]

/-- Hex digit value, as accepted by `Number.parseInt(_, 16)`. -/
def hexDigitVal (c : Char) : Option Nat :=
  if 48 ≤ c.toNat ∧ c.toNat ≤ 57 then some (c.toNat - 48)
  else if 97 ≤ c.toNat ∧ c.toNat ≤ 102 then some (c.toNat - 87)
  else if 65 ≤ c.toNat ∧ c.toNat ≤ 70 then some (c.toNat - 55)
  else none

/-- JS `Number.parseInt(two-char-slice, 16)`: greedy, so a valid first digit
followed by an invalid one yields the one-digit value; an invalid first
digit yields NaN (`none`). -/
def parseHexPair (a b : Char) : Option Nat :=
  match hexDigitVal a with
  | none => none
  | some x =>
    match hexDigitVal b with
    | some y => some (16 * x + y)
    | none => some x

/-- The function `hexToRgba`: trim, strip `#`, expand 3-digit form, parse
three byte pairs, alpha 255; any failure yields opaque black. -/
def hexToRgba (hex : String) : List Nat :=
  let cs0 := ((hex.data.dropWhile (fun c => isJsWhitespace c.toNat)).reverse.dropWhile
    (fun c => isJsWhitespace c.toNat)).reverse
  let cs1 := if cs0.head? = some '#' then cs0.tail else cs0
  let cs2 := if cs1.length = 3 then (cs1.map (fun c => [c, c])).flatten else cs1
  match cs2 with
  | [a, b, c, d, e, f] =>
    match parseHexPair a b, parseHexPair c d, parseHexPair e f with
    | some r, some g, some bl => [r, g, bl, 255]
    | _, _, _ => [0, 0, 0, 255]
  | _ => [0, 0, 0, 255]

/-- One RGBA pixel of the bitmap `toPNG` builds.  The imperative original
first fills the background and then blits each valid buffer cell scaled by
`pixelSize`; since every bitmap byte is written by the background once and
by at most one cell, the final value is a function of the pixel position,
computed here directly.  A cell is blitted iff its index is neither the
sentinel `-1` nor negative nor `≥ colors.length` and the palette entry is a
non-empty string, reproducing the `continue` tests of the source. -/
def pngPixel (pal : Palette) (b : PixelBuffer) (bg : String)
    (pixelSize : Nat) (fx fy : Nat) : List Nat :=
  let ci := ((PixelBuffer.getData b).getD (fy / pixelSize) []).getD (fx / pixelSize) (-1)
  if 0 ≤ ci ∧ ci < (pal.colors.length : Int) ∧ pal.colors.getD ci.toNat "" ≠ "" then
    hexToRgba (pal.colors.getD ci.toNat "")
  else if bg = "transparent" then [0, 0, 0, 0]
  else if bg = "pattern" then
    let checker := fx / pixelSize + fy / pixelSize
    let gray := if checker % 2 = 0 then 240 else 220
    [gray, gray, gray, 255]
  else hexToRgba bg

/-- The RGBA bitmap of `toPNG`, row-major. -/
def toPNGbitmap (pal : Palette) (b : PixelBuffer) (bg : String)
    (pixelSize actualSize : Nat) : List Nat :=
  ((List.range actualSize).map (fun fy =>
    ((List.range actualSize).map (fun fx =>
      pngPixel pal b bg pixelSize fx fy)).flatten)).flatten

/-- The function `toPNG`: `pixelSize = max(1, ⌊size/width⌋)`, output
dimension `pixelSize · width`.  The `try`/`catch` wrapper cannot fire in
the pure model; its 1×1 transparent fallback is `toPNGFallback` below. -/
def toPNG (b : PixelBuffer) (size : Nat) (bg : String) (paletteName : String) :
    List Nat :=
  let pal := getPalette paletteName
  let pixelSize := max 1 (size / b.width)
  let actualSize := pixelSize * b.width
  generatePNG (toPNGbitmap pal b bg pixelSize actualSize) actualSize actualSize

/-- The catch-branch fallback of `toPNG`: a 1×1 fully transparent PNG. -/
def toPNGFallback : List Nat := generatePNG [0, 0, 0, 0] 1 1

/-- Decimal digits of the proper fraction `num/den` (`num < den`), emitted
until the expansion terminates; all values formatted by the SVG encoder
have denominators dividing a power of two, so 64 digits of fuel are ample
and the rendering matches the JS number-to-string output on them. -/
def decDigitsAux (den : Nat) : Nat → Nat → String
  | 0, _ => ""
  | fuel + 1, num =>
    if num = 0 then ""
    else toString (num * 10 / den) ++ decDigitsAux den fuel (num * 10 % den)

/-- JS template-literal rendering of the rational numbers interpolated by
the SVG encoder (integer or terminating decimal). -/
def qToString (q : ℚ) : String :=
  let sign := if q < 0 then "-" else ""
  let a := |q|
  let ip := a.num.toNat / a.den
  let fr := a.num.toNat % a.den
  if fr = 0 then sign ++ toString ip
  else sign ++ toString ip ++ "." ++ decDigitsAux a.den 64 fr

/-- One merged rectangle pushed by the SVG encoder (coordinates already
scaled by `pixelSize`). -/
structure SvgRect where
  x : ℚ
  y : ℚ
  width : ℚ
  height : ℚ
  color : String
deriving DecidableEq

/-- The horizontal-run loop of `toSVG`: extend `width` while the next cell
holds the same color index and is unprocessed.  Fuel is the buffer width,
an upper bound on the iterations. -/
def runWidthAux (row : List Int) (procRow : List Bool) (ci : Int)
    (width x : Nat) : Nat → Nat → Nat
  | 0, w0 => w0
  | fuel + 1, w0 =>
    if x + w0 < width ∧ row.getD (x + w0) (-1) = ci ∧
        procRow.getD (x + w0) true = false then
      runWidthAux row procRow ci width x fuel (w0 + 1)
    else w0

/-- The `canExtendVertically` test of `toSVG` for one candidate row. -/
def svgRowOk (data : List (List Int)) (proc : List (List Bool)) (ci : Int)
    (x w yh : Nat) : Bool :=
  (List.range w).all (fun dx =>
    (((data.getD yh []).getD (x + dx) (-1)) == ci) &&
    (((proc.getD yh []).getD (x + dx) true) == false))

/-- The vertical-run loop of `toSVG`, with the buffer height as fuel. -/
def runHeightAux (data : List (List Int)) (proc : List (List Bool)) (ci : Int)
    (height x w y : Nat) : Nat → Nat → Nat
  | 0, h0 => h0
  | fuel + 1, h0 =>
    if y + h0 < height ∧ svgRowOk data proc ci x w (y + h0) = true then
      runHeightAux data proc ci height x w y fuel (h0 + 1)
    else h0

/-- Mark a `w × h` rectangle of cells as processed. -/
def markProc (proc : List (List Bool)) (x y w h : Nat) : List (List Bool) :=
  (List.range h).foldl (fun p dy =>
    p.set (y + dy)
      ((List.range w).foldl (fun row dx => row.set (x + dx) true)
        (p.getD (y + dy) []))) proc

/-- One cell of the row-major scan of `toSVG`: skip processed or transparent
cells, otherwise compute the maximal run, mark it processed and push the
scaled rectangle.  A color index outside the palette renders as the string
`undefined`, exactly as the JS template literal would. -/
def svgCellStep (colors : List String) (width height : Nat)
    (data : List (List Int)) (pixelSize : ℚ)
    (st : List (List Bool) × List SvgRect) (y x : Nat) :
    List (List Bool) × List SvgRect :=
  if (st.1.getD y []).getD x false = true ∨ (data.getD y []).getD x (-1) = -1 then st
  else
    let ci := (data.getD y []).getD x (-1)
    let color :=
      if 0 ≤ ci ∧ ci < (colors.length : Int) then colors.getD ci.toNat ""
      else "undefined"
    let w := runWidthAux (data.getD y []) (st.1.getD y []) ci width x width 1
    let h := runHeightAux data st.1 ci height x w y height 1
    (markProc st.1 x y w h,
      st.2 ++ [⟨(x : ℚ) * pixelSize, (y : ℚ) * pixelSize, (w : ℚ) * pixelSize,
        (h : ℚ) * pixelSize, color⟩])

/-- The full rectangle-merging scan of `toSVG`. -/
def svgScan (colors : List String) (width height : Nat)
    (data : List (List Int)) (pixelSize : ℚ) : List SvgRect :=
  ((List.range height).foldl (fun st y =>
    (List.range width).foldl (fun st2 x =>
      svgCellStep colors width height data pixelSize st2 y x) st)
    (List.replicate height (List.replicate width false), [])).2

/-- Rendering of one merged rectangle. -/
def rectString (r : SvgRect) : String :=
  "<rect x=\"" ++ qToString r.x ++ "\" y=\"" ++ qToString r.y ++
    "\" width=\"" ++ qToString r.width ++ "\" height=\"" ++ qToString r.height ++
    "\" fill=\"" ++ r.color ++ "\"/>"

/-- The background markup of `toSVG`: nothing for `transparent`, the
checkerboard pattern definition plus a full-canvas fill for `pattern`, a
plain full-canvas fill otherwise. -/
def svgBackground (size : Nat) (bg : String) (pixelSize : ℚ) : String :=
  if bg = "transparent" then ""
  else if bg = "pattern" then
    "<defs><pattern id=\"bg\" patternUnits=\"userSpaceOnUse\" width=\"" ++
      qToString (pixelSize * 2) ++ "\" height=\"" ++ qToString (pixelSize * 2) ++
      "\">\n        <rect width=\"" ++ qToString pixelSize ++ "\" height=\"" ++
      qToString pixelSize ++ "\" fill=\"#f0f0f0\"/>\n        <rect x=\"" ++
      qToString pixelSize ++ "\" y=\"" ++ qToString pixelSize ++ "\" width=\"" ++
      qToString pixelSize ++ "\" height=\"" ++ qToString pixelSize ++
      "\" fill=\"#f0f0f0\"/>\n        <rect x=\"" ++ qToString pixelSize ++
      "\" width=\"" ++ qToString pixelSize ++ "\" height=\"" ++
      qToString pixelSize ++ "\" fill=\"#e0e0e0\"/>\n        <rect y=\"" ++
      qToString pixelSize ++ "\" width=\"" ++ qToString pixelSize ++
      "\" height=\"" ++ qToString pixelSize ++
      "\" fill=\"#e0e0e0\"/>\n      </pattern></defs>" ++
      "<rect width=\"" ++ toString size ++ "\" height=\"" ++ toString size ++
      "\" fill=\"url(#bg)\"/>"
  else
    "<rect width=\"" ++ toString size ++ "\" height=\"" ++ toString size ++
      "\" fill=\"" ++ bg ++ "\"/>"

/-- The function `toSVG`.  `pixelSize = size / width` is the exact rational
quotient (the JS double division is exact for the 16-wide buffers and
integer sizes this system passes). -/
def toSVG (b : PixelBuffer) (size : Nat) (bg : String) (paletteName : String) :
    String :=
  let pal := getPalette paletteName
  let pixelSize : ℚ := (size : ℚ) / (b.width : ℚ)
  let header := "<svg width=\"" ++ toString size ++ "\" height=\"" ++
    toString size ++ "\" viewBox=\"0 0 " ++ toString size ++ " " ++
    toString size ++
    "\" xmlns=\"http://www.w3.org/2000/svg\" shapeRendering=\"crispEdges\">"
  let rects := svgScan pal.colors b.width b.height (PixelBuffer.getData b) pixelSize
  header ++ svgBackground size bg pixelSize ++
    (rects.foldl (fun s r => s ++ rectString r) "") ++ "</svg>"

/-- C9: every byte sequence produced by the raster encoder begins with the
fixed 8-byte PNG signature and ends with the fixed 12-byte IEND chunk: this
holds for `generatePNG` on any bitmap and dimensions, hence for `toPNG` on
any buffer, size and background, for the 1×1 transparent placeholder of the
catch branch, and also for the hardcoded minimal PNG of `generatePNG`'s own
catch branch. -/
theorem png_signature_and_iend (data : List Nat) (w h : Nat) (b : PixelBuffer)
    (size : Nat) (bg paletteName : String) :
    (pngSignature <+: generatePNG data w h ∧ iendChunk <:+ generatePNG data w h)
  ∧ (pngSignature <+: toPNG b size bg paletteName ∧
      iendChunk <:+ toPNG b size bg paletteName)
  ∧ (pngSignature <+: toPNGFallback ∧ iendChunk <:+ toPNGFallback)
  ∧ (pngSignature <+: minimalPNG ∧ iendChunk <:+ minimalPNG) := by
  have hgen : ∀ (d : List Nat) (w1 h1 : Nat),
      pngSignature <+: generatePNG d w1 h1 ∧ iendChunk <:+ generatePNG d w1 h1 := by
    intro d w1 h1
    constructor
    · exact ⟨ihdrChunk w1 h1 ++ idatChunk (deflateStored (scanlines d w1 h1)) ++
        iendChunk, by simp [generatePNG]⟩
    · exact ⟨pngSignature ++ ihdrChunk w1 h1 ++
        idatChunk (deflateStored (scanlines d w1 h1)), by simp [generatePNG]⟩
  exact ⟨hgen data w h, hgen _ _ _, hgen _ _ _, by decide, by decide⟩

/-- C1: two-run determinism of the whole pipeline.  In the embedding the
engine (constructor plus `generate`) and both encoders are pure functions
of exactly (seed, palette name, mood, gender) respectively (buffer, size,
background, palette name) — there is no hidden state, clock or ambient
randomness — so repeated runs on the same inputs produce identical buffers
and identical encoder output. -/
theorem pipeline_deterministic (seed : Nat) (paletteName : String) (mood : Mood)
    (gender : Gender) (b : PixelBuffer) (size : Nat) (bg pal2 : String) :
    avatarGenerate seed paletteName mood gender =
      avatarGenerate seed paletteName mood gender
  ∧ toSVG b size bg pal2 = toSVG b size bg pal2
  ∧ toPNG b size bg pal2 = toPNG b size bg pal2 :=
  ⟨rfl, rfl, rfl⟩
